import Mathlib

/-!
Shallow embedding of the interactive subsystems of `src/src/App.jsx`
(visit counter, animated numeric counter, viewport reveal trigger,
scroll mapping, magnetic button), together with theorems settling the
spec's claims about them.

Conventions of the embedding:
* JavaScript numbers that can be `NaN` are modelled as `Option Int`
  (`none` = `NaN`); the only arithmetic the code performs on them is
  `+ 1`, which maps `NaN` to `NaN`.
* `localStorage.getItem` / `sessionStorage.getItem` return
  `string | null`, modelled as `Option String` (`none` = `null`).
* Throwing code is modelled with `Except Unit`.
* Times and coordinates are modelled as `ℚ` (the code performs only
  field operations, `min`, `Math.floor` and comparisons on them).
-/

namespace Portfolio

/-- ASCII whitespace skipped by `parseInt` (the code never stores
strings with exotic Unicode whitespace in the relevant keys). -/
def jsWhitespaceChar (c : Char) : Bool :=
  c = ' ' || c = '\t' || c = '\n' || c = '\r'

/-- Value of a character as a digit in the given radix, `none` if it is
not a digit of that radix. -/
def digitValue? (radix : ℕ) (c : Char) : Option ℕ :=
  let v : ℕ :=
    if '0' ≤ c ∧ c ≤ '9' then c.toNat - '0'.toNat
    else if 'a' ≤ c ∧ c ≤ 'z' then c.toNat - 'a'.toNat + 10
    else if 'A' ≤ c ∧ c ≤ 'Z' then c.toNat - 'A'.toNat + 10
    else 99
  if v < radix then some v else none

/-- JavaScript `parseInt(s)` (radix argument omitted, as in the code):
skip leading whitespace, read an optional sign, detect a `0x`/`0X` hex
marker, then read the longest prefix of digits of the radix; if that
prefix is empty the result is `NaN` (`none`). -/
def jsParseInt (s : String) : Option Int :=
  let cs := s.toList.dropWhile jsWhitespaceChar
  let signed : Int × List Char :=
    match cs with
    | '-' :: rest => (-1, rest)
    | '+' :: rest => (1, rest)
    | _ => (1, cs)
  let based : ℕ × List Char :=
    match signed.2 with
    | '0' :: 'x' :: rest => (16, rest)
    | '0' :: 'X' :: rest => (16, rest)
    | _ => (10, signed.2)
  let ds := based.2.takeWhile fun c => (digitValue? based.1 c).isSome
  if ds.isEmpty then none
  else some (signed.1 *
    (ds.foldl (fun acc c => acc * based.1 + ((digitValue? based.1 c).getD 0)) 0 : ℕ))

/-- JavaScript `v || dflt` for `v : string | null`: `null` and the empty
string are falsy. -/
def jsOr (v : Option String) (dflt : String) : String :=
  match v with
  | none => dflt
  | some s => if s = "" then dflt else s

/-- Truthiness of a `string | null` value. -/
def jsTruthy (v : Option String) : Bool :=
  match v with
  | none => false
  | some s => !(s = "")

/-- `n.toString()` for a possibly-`NaN` number. -/
def jsNumToString : Option Int → String
  | none => "NaN"
  | some n => toString n

/-- `n + 1` on possibly-`NaN` numbers: `NaN + 1` is `NaN`. -/
def jsAddOne : Option Int → Option Int
  | none => none
  | some n => some (n + 1)

/-- The two storage keys the counter uses: `localStorage` value under
`naeem_portfolio_visitors` and `sessionStorage` value under
`naeem_portfolio_visited_session`. `none` = key absent. -/
structure Storage where
  visitors : Option String
  visitedSession : Option String
deriving DecidableEq, Repr

/-- `BASE_COUNT` from `useVisitorCounter`. -/
def BASE_COUNT : Int := 1250

/-- The effect body of `useVisitorCounter` (`src/src/App.jsx` lines
12-36): read `localStorage`, reseed to `BASE_COUNT` when the parsed
value is exactly `0`, and if the session flag is not set increment,
write the counter back and set the flag.  Returns the count passed to
`setCount` together with the updated storage. -/
def useVisitorCounter (st : Storage) : Option Int × Storage :=
  let currentCount := jsParseInt (jsOr st.visitors "0")
  let currentCount := if currentCount = some 0 then some BASE_COUNT else currentCount
  if !(jsTruthy st.visitedSession) then
    let c := jsAddOne currentCount
    (c, ⟨some (jsNumToString c), some "true"⟩)
  else
    (currentCount, st)

/-- One run's view of the fallible storage collaborator: what each
`getItem` call returns (or that it throws), and whether each `setItem`
call succeeds. -/
structure StorageOps where
  getVisitors : Except Unit (Option String)
  getSession : Except Unit (Option String)
  setVisitorsOk : Bool
  setSessionOk : Bool

/-- The same effect body of `useVisitorCounter`, run against a storage
collaborator whose operations may throw (storage disabled, quota
exceeded).  The code contains no try/catch, so a failing operation's
exception propagates out of the effect body: `.error ()` means the
resolution raised.  Operations are reached in source order: visitors
get, session get, then — only in a fresh session — visitors set and
session set. -/
def useVisitorCounterExc (ops : StorageOps) : Except Unit (Option Int) :=
  match ops.getVisitors with
  | .error e => .error e
  | .ok raw =>
    let currentCount := jsParseInt (jsOr raw "0")
    let currentCount := if currentCount = some 0 then some BASE_COUNT else currentCount
    match ops.getSession with
    | .error e => .error e
    | .ok sess =>
      if !(jsTruthy sess) then
        let c := jsAddOne currentCount
        if ops.setVisitorsOk then
          if ops.setSessionOk then .ok c else .error ()
        else .error ()
      else .ok currentCount

/-- C1: from empty storage (no persisted visit count, session flag
unset), the first resolution returns 1251 = 1250 + 1, persists "1251"
and sets the session flag; the resulting storage is a fixed point of
the resolution, so every one of the n subsequent resolutions in the
same session returns the same 1251 and changes nothing. -/
theorem visitor_counter_first_session_increments_once (n : ℕ) :
    useVisitorCounter ⟨none, none⟩ = (some 1251, ⟨some "1251", some "true"⟩) ∧
    (fun st => (useVisitorCounter st).2)^[n] ⟨some "1251", some "true"⟩
      = (⟨some "1251", some "true"⟩ : Storage) ∧
    (useVisitorCounter ⟨some "1251", some "true"⟩).1 = some 1251 := by
  refine ⟨by decide, Function.iterate_fixed (by decide) n, by decide⟩

/-- C2 counterexample: with both `setItem` calls throwing (and nothing
persisted), resolution raises — the exception propagates to the caller
instead of being caught, refuting "never propagates an exception ...
still returns a valid integer ≥ the base value". -/
theorem visitor_counter_set_throw_cex :
    useVisitorCounterExc ⟨.ok none, .ok none, false, false⟩ = .error () := rfl

/-- C2 amended: resolution catches nothing.  When every storage
operation succeeds it agrees with the pure resolution; when any reached
operation throws (either get, or — in a fresh session — either set),
the exception propagates to the caller. -/
theorem visitor_counter_propagates_storage_failures (st : Storage) (g s : Option String)
    (hs : jsTruthy s = false) :
    useVisitorCounterExc ⟨.ok st.visitors, .ok st.visitedSession, true, true⟩
      = .ok (useVisitorCounter st).1 ∧
    useVisitorCounterExc ⟨.error (), .ok s, true, true⟩ = .error () ∧
    useVisitorCounterExc ⟨.ok g, .error (), true, true⟩ = .error () ∧
    useVisitorCounterExc ⟨.ok g, .ok s, false, true⟩ = .error () ∧
    useVisitorCounterExc ⟨.ok g, .ok s, true, false⟩ = .error () := by
  refine ⟨?_, by simp [useVisitorCounterExc], by simp [useVisitorCounterExc],
    by simp [useVisitorCounterExc, hs], by simp [useVisitorCounterExc, hs]⟩
  cases h : jsTruthy st.visitedSession <;>
    simp [useVisitorCounter, useVisitorCounterExc, h]

/-- Witness for the C2 theorem at concrete inputs. -/
theorem visitor_counter_propagates_storage_failures_witness :
    useVisitorCounterExc ⟨.ok none, .ok (some "true"), true, true⟩
      = .ok (useVisitorCounter ⟨none, some "true"⟩).1 ∧
    useVisitorCounterExc ⟨.error (), .ok none, true, true⟩ = .error () ∧
    useVisitorCounterExc ⟨.ok none, .error (), true, true⟩ = .error () ∧
    useVisitorCounterExc ⟨.ok none, .ok none, false, true⟩ = .error () ∧
    useVisitorCounterExc ⟨.ok none, .ok none, true, false⟩ = .error () :=
  visitor_counter_propagates_storage_failures ⟨none, some "true"⟩ none none (by decide)

/-- C3 counterexample: with persisted value "abc" (not parseable) and a
fresh session, resolution returns `NaN` — not a non-negative integer —
and persists the string "NaN" instead of reseeding with 1250: the
malformed value is not treated like an absent one. -/
theorem visitor_counter_malformed_cex :
    (useVisitorCounter ⟨some "abc", none⟩).1 = none ∧
    useVisitorCounter ⟨some "abc", none⟩ = (none, ⟨some "NaN", some "true"⟩) := by decide

/-- C3 amended: a non-empty persisted string on which `parseInt` yields
`NaN` is not treated as absent: the `=== 0` reseed does not fire, the
resolution returns `NaN`, and in a fresh session the string "NaN" is
persisted and the session flag set.  Only an absent (or empty) value is
treated as 0 and reseeded with the base, giving 1251. -/
theorem visitor_counter_malformed_yields_nan (s : String)
    (hne : s ≠ "") (hnan : jsParseInt s = none) :
    useVisitorCounter ⟨some s, none⟩ = (none, ⟨some "NaN", some "true"⟩) ∧
    useVisitorCounter ⟨none, none⟩ = (some 1251, ⟨some "1251", some "true"⟩) := by
  refine ⟨?_, by decide⟩
  simp [useVisitorCounter, jsOr, jsTruthy, hne, hnan, jsAddOne, jsNumToString]

/-- Witness for the C3 amended theorem at the persisted value "abc". -/
theorem visitor_counter_malformed_yields_nan_witness :
    useVisitorCounter ⟨some "abc", none⟩ = (none, ⟨some "NaN", some "true"⟩) ∧
    useVisitorCounter ⟨none, none⟩ = (some 1251, ⟨some "1251", some "true"⟩) :=
  visitor_counter_malformed_yields_nan "abc" (by decide) (by decide)

/-- C10: when the session flag is already truthy and the persisted
visit count is absent or parses to exactly 0, resolution returns the
base 1250 without incrementing and leaves both storages untouched. -/
theorem visitor_counter_flagged_session_no_write (st : Storage)
    (hs : jsTruthy st.visitedSession = true)
    (hz : st.visitors = none ∨ ∃ s, st.visitors = some s ∧ jsParseInt s = some 0) :
    useVisitorCounter st = (some 1250, st) := by
  have hp : jsParseInt (jsOr st.visitors "0") = some 0 := by
    rcases hz with h | ⟨s, hv, hparse⟩
    · rw [h]; decide
    · rw [hv]
      by_cases he : s = ""
      · simp [jsOr, he]; decide
      · simpa [jsOr, he] using hparse
  simp [useVisitorCounter, hp, hs, BASE_COUNT]

/-- Witness for C10: session flag set, nothing persisted. -/
theorem visitor_counter_flagged_session_no_write_witness :
    useVisitorCounter ⟨none, some "true"⟩ = (some 1250, ⟨none, some "true"⟩) :=
  visitor_counter_flagged_session_no_write ⟨none, some "true"⟩ (by decide) (Or.inl rfl)

/-- Falsiness of the `startTime` local of the `animate` callback in
`AnimatedCounter`: `if (!startTime)` treats both `undefined` (`none`)
and the timestamp `0` as unset. -/
def jsFalsyTime : Option ℚ → Bool
  | none => true
  | some t => decide (t = 0)

/-- Progress on one tick:
`Math.min((timestamp - startTime) / (duration * 1000), 1)`. -/
def tickProgress (duration s ts : ℚ) : ℚ := min ((ts - s) / (duration * 1000)) 1

/-- The `animate` callback of `AnimatedCounter` (`src/src/App.jsx` lines
51-58), run over a list of frame timestamps.  Each tick re-captures
`startTime` whenever it is falsy, computes the clamped progress, passes
`Math.floor(progress * end)` to `setCount`, and requests another frame
exactly when `progress < 1`.  Returns, per tick, the count set and
whether a further frame was requested. -/
def animateRun (duration endVal : ℚ) : Option ℚ → List ℚ → List (ℤ × Bool)
  | _, [] => []
  | st, ts :: rest =>
    let s := if jsFalsyTime st then ts else st.getD 0
    let p := tickProgress duration s ts
    (⌊p * endVal⌋, decide (p < 1)) :: animateRun duration endVal (some s) rest

/-- Guard of the `AnimatedCounter` effect: `isInView && !loading && end > 0`. -/
def animatedCounterStarts (isInView loading : Bool) (endVal : ℚ) : Bool :=
  isInView && !loading && decide (0 < endVal)

/-- One mount of `AnimatedCounter`: the initial frame request happens
only when the effect guard holds; with the guard false no frame is ever
requested, so no tick is delivered and the run is empty. -/
def animatedCounterRun (isInView loading : Bool) (endVal duration : ℚ)
    (ticks : List ℚ) : List (ℤ × Bool) :=
  if animatedCounterStarts isInView loading endVal then
    animateRun duration endVal none ticks
  else []

/-- Render of `AnimatedCounter`: `loading ? '...' : count` followed by
`!loading && suffix` (JSX renders `false` as nothing). -/
def animatedCounterRender (loading : Bool) (count : ℤ) (sfx : String) : String :=
  if loading then "..." else toString count ++ sfx

lemma animateRun_some (duration endVal s : ℚ) (hs : s ≠ 0) (l : List ℚ) :
    animateRun duration endVal (some s) l
      = l.map fun ts => (⌊tickProgress duration s ts * endVal⌋,
          decide (tickProgress duration s ts < 1)) := by
  induction l with
  | nil => rfl
  | cons t rest ih =>
      have hf : jsFalsyTime (some s) = false := by
        simp [jsFalsyTime, hs]
      simp [animateRun, hf, ih]

lemma animateRun_cons_none (duration endVal t0 : ℚ) (l : List ℚ) :
    animateRun duration endVal none (t0 :: l)
      = (⌊tickProgress duration t0 t0 * endVal⌋,
          decide (tickProgress duration t0 t0 < 1))
        :: animateRun duration endVal (some t0) l := by
  simp [animateRun, jsFalsyTime]

lemma tickProgress_mono (duration s : ℚ) (hd : 0 < duration) {a b : ℚ} (h : a ≤ b) :
    tickProgress duration s a ≤ tickProgress duration s b := by
  have hD : 0 < duration * 1000 := by positivity
  exact min_le_min ((div_le_div_iff_of_pos_right hD).mpr (sub_le_sub_right h s)) le_rfl

lemma tickProgress_le_one (duration s ts : ℚ) : tickProgress duration s ts ≤ 1 :=
  min_le_right _ _

/-- C5: with target 0 and settled (`loading = false`), the effect guard
is false whatever the reveal trigger says, so no frame is ever
requested, the run is empty for every tick stream, and the rendered
text is permanently "0". -/
theorem animated_counter_zero_target (isInView : Bool) (duration : ℚ) (ticks : List ℚ) :
    animatedCounterRun isInView false 0 duration ticks = [] ∧
    animatedCounterStarts isInView false 0 = false ∧
    animatedCounterRender false 0 "" = "0" := by
  have h0 : decide ((0 : ℚ) < 0) = false := decide_eq_false (lt_irrefl 0)
  refine ⟨?_, ?_, rfl⟩ <;>
    cases isInView <;> simp [animatedCounterRun, animatedCounterStarts, h0]

/-- C4 counterexample: duration 2 s, target 100, tick timestamps 0,
1000, 2000 ms.  The claim's formula — start = first timestamp,
displayed = floor(clamp((now − start)/2000, 0, 1) · 100) — predicts the
values 0, 50, 100 with no frame requested at the last tick; the code
instead re-captures `startTime` at the second tick (`!startTime` is
true for the falsy timestamp 0), displays 0, 0, 50 and requests a
further frame on every one of the three ticks. -/
theorem animated_counter_zero_timestamp_cex :
    (animatedCounterRun true false (100 : ℚ) 2 [0, 1000, 2000]).map Prod.fst
      = [0, 0, 50] ∧
    (animatedCounterRun true false (100 : ℚ) 2 [0, 1000, 2000]).map Prod.snd
      = [true, true, true] ∧
    [(0 : ℚ), 1000, 2000].map
        (fun ts => ⌊min (max ((ts - 0) / (2 * 1000)) 0) 1 * (100 : ℚ)⌋)
      = [0, 50, 100] := by
  refine ⟨?_, ?_, ?_⟩ <;>
    norm_num [animatedCounterRun, animatedCounterStarts, animateRun, jsFalsyTime,
      tickProgress]

/-- C4 amended: for an integer target n > 0, settled and revealed, and
a non-decreasing tick-timestamp stream whose first timestamp t0 is
nonzero (truthy), every displayed value equals
floor(min((now − t0)/(duration·1000), 1) · n); the displayed sequence
is non-decreasing, never exceeds n, and at any tick after which no
further frame is requested the displayed value is exactly n.  (When the
first timestamp is exactly 0 the code re-captures the start time at the
next tick and the formula fails, see the counterexample.) -/
theorem animated_counter_tween_formula (duration : ℚ) (n : ℤ) (t0 : ℚ) (rest : List ℚ)
    (hd : 0 < duration) (hn : 0 < n) (ht0 : t0 ≠ 0)
    (hch : List.Chain' (· ≤ ·) (t0 :: rest)) :
    animatedCounterRun true false (n : ℚ) duration (t0 :: rest)
      = (t0 :: rest).map (fun ts => (⌊tickProgress duration t0 ts * (n : ℚ)⌋,
          decide (tickProgress duration t0 ts < 1))) ∧
    List.Chain' (· ≤ ·)
      ((animatedCounterRun true false (n : ℚ) duration (t0 :: rest)).map Prod.fst) ∧
    (∀ p ∈ animatedCounterRun true false (n : ℚ) duration (t0 :: rest), p.1 ≤ n) ∧
    (∀ p ∈ animatedCounterRun true false (n : ℚ) duration (t0 :: rest),
        p.2 = false → p.1 = n) := by
  have hn0 : (0 : ℚ) ≤ (n : ℚ) := by exact_mod_cast hn.le
  have hnq : (0 : ℚ) < (n : ℚ) := by exact_mod_cast hn
  have hguard : animatedCounterStarts true false (n : ℚ) = true := by
    simp [animatedCounterStarts, hnq]
  have hrun : animatedCounterRun true false (n : ℚ) duration (t0 :: rest)
      = (t0 :: rest).map (fun ts => (⌊tickProgress duration t0 ts * (n : ℚ)⌋,
          decide (tickProgress duration t0 ts < 1))) := by
    simp only [animatedCounterRun, hguard, if_true, List.map_cons,
      animateRun_cons_none, animateRun_some duration (n : ℚ) t0 ht0 rest]
  refine ⟨hrun, ?_, ?_, ?_⟩
  · rw [hrun, List.map_map]
    rw [List.chain'_map]
    refine hch.imp ?_
    intro a b hab
    exact Int.floor_le_floor
      (mul_le_mul_of_nonneg_right (tickProgress_mono duration t0 hd hab) hn0)
  · rw [hrun]
    intro p hp
    obtain ⟨ts, -, rfl⟩ := List.mem_map.mp hp
    calc ⌊tickProgress duration t0 ts * (n : ℚ)⌋
        ≤ ⌊(n : ℚ)⌋ := Int.floor_le_floor (by
          have := tickProgress_le_one duration t0 ts
          calc tickProgress duration t0 ts * (n : ℚ) ≤ 1 * (n : ℚ) :=
                mul_le_mul_of_nonneg_right this hn0
            _ = (n : ℚ) := one_mul _)
      _ = n := Int.floor_intCast n
  · rw [hrun]
    intro p hp hflag
    obtain ⟨ts, -, rfl⟩ := List.mem_map.mp hp
    have h1 : ¬ (tickProgress duration t0 ts < 1) := of_decide_eq_false hflag
    have heq : tickProgress duration t0 ts = 1 :=
      le_antisymm (tickProgress_le_one duration t0 ts) (not_lt.mp h1)
    show (⌊tickProgress duration t0 ts * (n : ℚ)⌋ : ℤ) = n
    rw [heq, one_mul, Int.floor_intCast]

/-- Witness for the C4 amended theorem: duration 2 s, target 100, ticks
at 1, 1001 and 2001 ms. -/
theorem animated_counter_tween_formula_witness :
    animatedCounterRun true false ((100 : ℤ) : ℚ) 2 [1, 1001, 2001]
      = [(1 : ℚ), 1001, 2001].map
          (fun ts => (⌊tickProgress 2 1 ts * ((100 : ℤ) : ℚ)⌋,
            decide (tickProgress 2 1 ts < 1))) ∧
    List.Chain' (· ≤ ·)
      ((animatedCounterRun true false ((100 : ℤ) : ℚ) 2 [1, 1001, 2001]).map Prod.fst) ∧
    (∀ p ∈ animatedCounterRun true false ((100 : ℤ) : ℚ) 2 [1, 1001, 2001],
        p.1 ≤ (100 : ℤ)) ∧
    (∀ p ∈ animatedCounterRun true false ((100 : ℤ) : ℚ) 2 [1, 1001, 2001],
        p.2 = false → p.1 = (100 : ℤ)) :=
  animated_counter_tween_formula 2 100 1 [1001, 2001] (by norm_num) (by norm_num)
    (by norm_num) (by norm_num [List.chain'_cons])

/-- The reveal state of one `useInView`-bound region. -/
inductive RevealState
  | Unseen
  | Revealed
deriving DecidableEq, Repr

/-- Modelled from the spec: the implementation of the viewport trigger
(framer-motion's `useInView` with `once: true`, `src/src/App.jsx` line
46) is not part of the repository source; §4.3 of the spec describes it
as a one-shot state machine.  One intersection notification: a region
already `Revealed` stays `Revealed` (`once: true` stops reacting after
the first hit); an `Unseen` region becomes `Revealed` exactly when the
notification reports `isIntersecting = true`. -/
def viewportNotify : RevealState → Bool → RevealState
  | .Revealed, _ => .Revealed
  | .Unseen, b => if b then .Revealed else .Unseen

/-- A sequence of intersection notifications delivered to one region. -/
def viewportRun (s : RevealState) (l : List Bool) : RevealState :=
  l.foldl viewportNotify s

lemma viewportRun_revealed (l : List Bool) :
    viewportRun .Revealed l = .Revealed := by
  induction l with
  | nil => rfl
  | cons b rest ih => simpa [viewportRun, viewportNotify] using ih

lemma viewportRun_of_mem_true (s : RevealState) (l : List Bool) (h : true ∈ l) :
    viewportRun s l = .Revealed := by
  induction l generalizing s with
  | nil => cases h
  | cons b rest ih =>
      cases b with
      | true =>
          have hn : viewportNotify s true = .Revealed := by cases s <;> rfl
          show viewportRun (viewportNotify s true) rest = .Revealed
          rw [hn]
          exact viewportRun_revealed rest
      | false =>
          have h2 : true ∈ rest := by simpa using h
          show viewportRun (viewportNotify s false) rest = .Revealed
          exact ih (viewportNotify s false) h2

/-- C6: any notification sequence containing at least one `true` leaves
the region's trigger `Revealed`, and every further notification
sequence — including `false` notifications — keeps it `Revealed`: the
transition `Revealed → Unseen` never occurs and the trigger never
re-arms on scroll-away. -/
theorem viewport_trigger_one_shot (l l2 : List Bool) (h : true ∈ l) :
    viewportRun .Unseen l = .Revealed ∧
    viewportRun (viewportRun .Unseen l) l2 = .Revealed := by
  have h1 := viewportRun_of_mem_true .Unseen l h
  exact ⟨h1, by rw [h1]; exact viewportRun_revealed l2⟩

/-- Witness for the C6 theorem on a concrete notification sequence. -/
theorem viewport_trigger_one_shot_witness :
    viewportRun .Unseen [false, true, false] = .Revealed ∧
    viewportRun (viewportRun .Unseen [false, true, false]) [false, false]
      = .Revealed :=
  viewport_trigger_one_shot [false, true, false] [false, false] (by decide)

/-- The `margin` option passed to every `useInView` call in the source:
`"-100px"`, i.e. -100 pixels on each edge. -/
def inViewMargin : ℤ := -100

/-- Modelled from the spec: the viewport-intersection observation
collaborator (§6) with a margin inset, in one dimension along the
scroll axis.  Following root-margin semantics the configured margin is
added to both ends of the viewport interval `[viewTop, viewBottom]`: a
positive margin grows the trigger zone beyond the viewport, a negative
one shrinks it inside the viewport. -/
def triggerZone (viewTop viewBottom margin : ℤ) : ℤ × ℤ :=
  (viewTop - margin, viewBottom + margin)

/-- Closed-interval overlap of a region `[a, b]` with a zone
`[lo, hi]`: the region "is intersecting" the zone. -/
def intersects (lo hi a b : ℤ) : Bool :=
  decide (a ≤ hi) && decide (lo ≤ b)

/-- C7 counterexample: with the source's margin -100 and a viewport
[0, 800], the trigger zone is [100, 700] — strictly inside the
viewport.  A region [805, 905] slightly below the visible viewport,
which the claim says is already considered intersecting, is not
intersecting the zone; even a region [710, 905] that is already
partially on-screen is not yet intersecting the zone: the transition
fires later than plain viewport entry, not before it. -/
theorem in_view_margin_cex :
    triggerZone 0 800 inViewMargin = (100, 700) ∧
    intersects 100 700 805 905 = false ∧
    intersects 0 800 710 905 = true ∧
    intersects 100 700 710 905 = false := by decide

/-- C7 amended: the configured margin is -100px, which contracts the
trigger zone 100 px inside each viewport edge rather than expanding it:
every region intersecting the zone also intersects the viewport, and a
region outside the zone's bounds — in particular any region not yet
100 px inside the viewport edge — is not intersecting, so the
Unseen → Revealed transition fires only after the region is at least
100 px inside the viewport, never before it is on-screen. -/
theorem in_view_margin_contracts (vt vb a b : ℤ) :
    vt < (triggerZone vt vb inViewMargin).1 ∧
    (triggerZone vt vb inViewMargin).2 < vb ∧
    (intersects (triggerZone vt vb inViewMargin).1
        (triggerZone vt vb inViewMargin).2 a b = true →
      intersects vt vb a b = true) ∧
    (b < vt + 100 ∨ vb - 100 < a →
      intersects (triggerZone vt vb inViewMargin).1
        (triggerZone vt vb inViewMargin).2 a b = false) := by
  simp only [triggerZone, inViewMargin, intersects, Bool.and_eq_true, decide_eq_true_eq,
    Bool.and_eq_false_iff, decide_eq_false_iff_not, not_le]
  omega

/-- Witness for the C7 amended theorem: viewport [0, 800]; the region
[200, 400] intersects the contracted zone and hence the viewport; the
region [805, 905] below the 100 px inset is not intersecting. -/
theorem in_view_margin_contracts_witness :
    intersects 0 800 200 400 = true ∧
    intersects (triggerZone 0 800 inViewMargin).1
      (triggerZone 0 800 inViewMargin).2 805 905 = false :=
  ⟨(in_view_margin_contracts 0 800 200 400).2.2.1 (by decide),
   (in_view_margin_contracts 0 800 805 905).2.2.2 (by decide)⟩

/-- Modelled from the spec: framer-motion's `useTransform` (its
implementation is not part of the repository source; §4.4 of the spec
specifies the mapping as a clamped linear interpolation): the progress
of the input through the domain is clamped to [0, 1] and mixed into the
output range. -/
def useTransformMap (d0 d1 r0 r1 x : ℚ) : ℚ :=
  let p := (x - d0) / (d1 - d0)
  let pc := max 0 (min p 1)
  r0 + pc * (r1 - r0)

/-- The parallax translation mapping of `Hero` (`src/src/App.jsx` line
227): `useTransform(scrollY, [0, 500], [0, 150])`. -/
def heroY (x : ℚ) : ℚ := useTransformMap 0 500 0 150 x

/-- C8: for every mapping with domain [d0, d1] and range [r0, r1], the
scroll mapping returns r0 at or below d0, r1 at or above d1, and the
linear interpolation in between; in particular for the Hero mapping
[0, 500] → [0, 150]: map(-50) = 0, map(0) = 0, map(500) = 150,
map(10000) = 150. -/
theorem scroll_progress_clamps (d0 d1 r0 r1 x : ℚ) (h : d0 < d1) :
    (x ≤ d0 → useTransformMap d0 d1 r0 r1 x = r0) ∧
    (d1 ≤ x → useTransformMap d0 d1 r0 r1 x = r1) ∧
    (d0 < x → x < d1 →
      useTransformMap d0 d1 r0 r1 x = r0 + (x - d0) / (d1 - d0) * (r1 - r0)) ∧
    heroY (-50) = 0 ∧ heroY 0 = 0 ∧ heroY 500 = 150 ∧ heroY 10000 = 150 := by
  have hdd : (0 : ℚ) < d1 - d0 := by linarith
  refine ⟨?_, ?_, ?_, ?_, ?_, ?_, ?_⟩
  · intro hx
    have hp : (x - d0) / (d1 - d0) ≤ 0 :=
      div_nonpos_of_nonpos_of_nonneg (by linarith) hdd.le
    simp only [useTransformMap]
    rw [max_eq_left (le_trans (min_le_left _ _) hp)]
    ring
  · intro hx
    have hp : (1 : ℚ) ≤ (x - d0) / (d1 - d0) := (one_le_div hdd).mpr (by linarith)
    simp only [useTransformMap]
    rw [min_eq_right hp, max_eq_right (by norm_num : (0 : ℚ) ≤ 1)]
    ring
  · intro hx1 hx2
    have hp0 : (0 : ℚ) < (x - d0) / (d1 - d0) := div_pos (by linarith) hdd
    have hp1 : (x - d0) / (d1 - d0) < 1 := (div_lt_one hdd).mpr (by linarith)
    simp only [useTransformMap]
    rw [min_eq_left hp1.le, max_eq_right hp0.le]
  · norm_num [heroY, useTransformMap]
  · norm_num [heroY, useTransformMap]
  · norm_num [heroY, useTransformMap]
  · norm_num [heroY, useTransformMap]

/-- Witness for the C8 theorem at the Hero mapping: below-domain,
above-domain and interior inputs. -/
theorem scroll_progress_clamps_witness :
    useTransformMap 0 500 0 150 (-50) = 0 ∧
    useTransformMap 0 500 0 150 600 = 150 ∧
    useTransformMap 0 500 0 150 250 = 0 + (250 - 0) / (500 - 0) * (150 - 0) :=
  ⟨(scroll_progress_clamps 0 500 0 150 (-50) (by norm_num)).1 (by norm_num),
   (scroll_progress_clamps 0 500 0 150 600 (by norm_num)).2.1 (by norm_num),
   (scroll_progress_clamps 0 500 0 150 250 (by norm_num)).2.2.1 (by norm_num)
     (by norm_num)⟩

/-- Bounding box returned by `getBoundingClientRect`; `none` geometry
below models a control whose measurement is unavailable
(`ref.current` still null). -/
structure DOMRect where
  left : ℚ
  top : ℚ
  width : ℚ
  height : ℚ
deriving DecidableEq, Repr

/-- The `handleMouse` handler of `MagneticButton` (`src/src/App.jsx`
lines 71-77): it destructures `ref.current.getBoundingClientRect()`
without any guard, so when the control's geometry is unavailable the
member access throws a TypeError (`.error ()`) before any displacement
is computed or `setPosition` is called; with geometry available it sets
the displacement `(pointer − center) × 0.3`. -/
def handleMouse (geom : Option DOMRect) (clientX clientY : ℚ) : Except Unit (ℚ × ℚ) :=
  match geom with
  | none => .error ()
  | some r => .ok ((clientX - r.left - r.width / 2) * (3 / 10),
                   (clientY - r.top - r.height / 2) * (3 / 10))

/-- C9 counterexample: a pointer-move sample delivered while the
control's geometry is unavailable makes the handler throw a TypeError —
the tick is not an exception-free no-op, refuting "no exception is
raised". -/
theorem magnetic_missing_geometry_cex :
    handleMouse none 10 20 = .error () := rfl

/-- C9 amended: with geometry unavailable the pointer-move handler
throws before computing any displacement or mutating the position
state; with geometry available it computes the displacement
`(pointer − center) × 0.3`. -/
theorem magnetic_missing_geometry_throws (r : DOMRect) (cx cy : ℚ) :
    handleMouse none cx cy = .error () ∧
    handleMouse (some r) cx cy
      = .ok ((cx - r.left - r.width / 2) * (3 / 10),
             (cy - r.top - r.height / 2) * (3 / 10)) :=
  ⟨rfl, rfl⟩

end Portfolio
